import Mathlib

/-
  Verification development for the BlueAir API client
  (source: src/blueairClient.ts, the axios-based ApiClient class).

  Shallow embedding conventions:
  * JavaScript runtime values that flow through the client are modelled by
    the inductive JSVal (undefined, null, booleans, numbers, strings,
    objects, arrays).
  * The HTTP transport (axios) is an external collaborator; each network
    attempt is modelled by an abstract outcome stream
    net : Nat -> AxiosOutcome giving the result of the i-th attempt
    (1-indexed, matching the attempt counter of the retry loop).
  * JSON.parse is a platform builtin, modelled by an abstract parameter
    parse : String -> Option JSVal where it is used (getDeviceInfo).
  * The ECMAScript Number(string) conversion used by isNaN(Number(v)) in the
    validators is modelled concretely by jsNumberIsNaN below.
  * Each public operation returns OpResult: OpResult.localErr m is an error
    thrown before the retry wrapper is entered (hence before any network
    request is issued); OpResult.net t records the trace of the retry loop
    (final result, number of invocations of the wrapped operation, and the
    inter-attempt delays performed).
  * URL strings, request bodies and logging are omitted: they are data fed
    to the external transport and have no bearing on control flow.
-/

namespace BlueairClient

/-- JSVal models a JavaScript runtime value as far as the client inspects
such values: undefined, null, booleans, numbers, strings, plain objects
and arrays. -/
inductive JSVal where
  | vundefined : JSVal
  | vnull : JSVal
  | vbool : Bool → JSVal
  | vnum : Int → JSVal
  | vstr : String → JSVal
  | vobj : List (String × JSVal) → JSVal
  | varr : List JSVal → JSVal

/-- jsFalsy models JavaScript truthiness tests such as the
"!this.endpoint || !this.authToken" guard: undefined, null, false, 0 and
the empty string are falsy (NaN is not modelled as a stored value). -/
def jsFalsy : JSVal → Bool
  | .vundefined => true
  | .vnull => true
  | .vbool b => !b
  | .vnum n => n = 0
  | .vstr s => s = ""
  | .vobj _ => false
  | .varr _ => false

/-- jsTypeofObject models the test "typeof v === 'object'": true for plain
objects, arrays and null. -/
def jsTypeofObject : JSVal → Bool
  | .vnull => true
  | .vobj _ => true
  | .varr _ => true
  | _ => false

/-- jsPrimToString models the JavaScript string coercion applied by template
literals and by the implicit argument coercion of JSON.parse. Object and
array rendering is simplified to the default object form; in this
development the function is only applied to values that fail the
"typeof v === 'object'" guard, so those two cases are unreachable. -/
def jsPrimToString : JSVal → String
  | .vundefined => "undefined"
  | .vnull => "null"
  | .vbool true => "true"
  | .vbool false => "false"
  | .vnum n => toString n
  | .vstr s => s
  | .vobj _ => "[object Object]"
  | .varr _ => "[object Object]"

/-- jsField models the property access "v.k" as used in
"response.data.message": the field of an object, undefined otherwise. -/
def jsField (v : JSVal) (k : String) : JSVal :=
  match v with
  | .vobj fields =>
    match fields.lookup k with
    | some x => x
    | none => .vundefined
  | _ => .vundefined

/-- AxiosResponseErr models the "error.response" carried by an axios error:
the HTTP status and the decoded body. -/
structure AxiosResponseErr where
  status : Nat
  data : JSVal

/-- AxiosOutcome models the outcome of one awaited axios request:
a resolution (2xx status, decoded body, response headers), a rejection with
an axios error (optionally carrying the server response, plus the error
message), or a rejection with a non-axios thrown value (identified by its
message, which is all the client ever inspects). -/
inductive AxiosOutcome where
  | success : Nat → JSVal → List (String × String) → AxiosOutcome
  | axiosErr : Option AxiosResponseErr → String → AxiosOutcome
  | otherErr : String → AxiosOutcome

/-- axiosRespStatusIs models the test "error.response?.status === s"
(undefined compares unequal to any number). -/
def axiosRespStatusIs (resp : Option AxiosResponseErr) (s : Nat) : Bool :=
  match resp with
  | some r => r.status = s
  | none => false

/-- optStatusString models the template fragment
interpolating error.response?.status. -/
def optStatusString (resp : Option AxiosResponseErr) : String :=
  match resp with
  | some r => toString r.status
  | none => "undefined"

/-- headerLookup models "response.headers[k]": the header value as a string,
or undefined when absent. -/
def headerLookup (hs : List (String × String)) (k : String) : JSVal :=
  match hs.lookup k with
  | some v => .vstr v
  | none => .vundefined

/-! ## The retry loop (private async retry of ApiClient) -/

/-- RetryResult is the result of the retry loop: a returned value, the final
attempt error rethrown unchanged, or the defensive post-loop generic error
(reached only when the loop body is never entered). -/
inductive RetryResult (ε α : Type) where
  | ok : α → RetryResult ε α
  | err : ε → RetryResult ε α
  | exhausted : RetryResult ε α

/-- RetryTrace records, besides the result, how many times the wrapped
operation was invoked and the list of inter-attempt delays performed. -/
structure RetryTrace (ε α : Type) where
  result : RetryResult ε α
  calls : Nat
  sleeps : List Nat

/-- retryGo is the loop of retry: fn is invoked with the current attempt
number; on failure, if further attempts remain the loop sleeps for delay
and continues, otherwise the error is rethrown unchanged. Translated from
the for-loop "for (let attempt = 1; attempt <= retries; attempt++)" with
remaining = retries - attempt + 1. -/
def retryGo (fn : Nat → Except ε α) (delay : Nat) : Nat → Nat → RetryTrace ε α
  | _, 0 => { result := .exhausted, calls := 0, sleeps := [] }
  | attempt, 1 =>
    match fn attempt with
    | .ok a => { result := .ok a, calls := 1, sleeps := [] }
    | .error e => { result := .err e, calls := 1, sleeps := [] }
  | attempt, r + 2 =>
    match fn attempt with
    | .ok a => { result := .ok a, calls := 1, sleeps := [] }
    | .error _ =>
      let t := retryGo fn delay (attempt + 1) (r + 1)
      { result := t.result, calls := t.calls + 1, sleeps := delay :: t.sleeps }

/-- retry models the private retry method. retries is an integer (the
source default is 3); a non-positive count never enters the loop body and
falls through to the generic "Failed after multiple retries" error,
modelled by RetryResult.exhausted. -/
def retry (fn : Nat → Except ε α) (retries : Int) (delay : Nat) : RetryTrace ε α :=
  retryGo fn delay 1 retries.toNat

/-- retryDefault is retry at the source defaults retries = 3,
delay = 1000. Every call site of the source uses these defaults. -/
def retryDefault (fn : Nat → Except ε α) : RetryTrace ε α :=
  retry fn 3 1000

/-- retryToExcept collapses a retry trace to the value returned or the
error thrown by the retry method, with the post-loop defensive case
producing the generic error message. -/
def retryToExcept (t : RetryTrace String α) : Except String α :=
  match t.result with
  | .ok a => .ok a
  | .err e => .error e
  | .exhausted => .error "Failed after multiple retries"

/-! ## Number parsing model -/

/-- digitChar recognises an ASCII decimal digit. -/
def digitChar (c : Char) : Bool := '0' ≤ c && c ≤ '9'

/-- hexChar recognises an ASCII hexadecimal digit. -/
def hexChar (c : Char) : Bool :=
  digitChar c || ('a' ≤ c && c ≤ 'f') || ('A' ≤ c && c ≤ 'F')

/-- octChar recognises an octal digit. -/
def octChar (c : Char) : Bool := '0' ≤ c && c ≤ '7'

/-- binChar recognises a binary digit. -/
def binChar (c : Char) : Bool := c = '0' || c = '1'

/-- jsWhitespaceChar models the ECMAScript StrWhiteSpaceChar set trimmed by
Number(string) (the common members: space, tab, line terminators, vertical
tab, form feed, no-break space, BOM). -/
def jsWhitespaceChar (c : Char) : Bool :=
  c = ' ' || c = '\t' || c = '\n' || c = '\r' || c = '\x0b' || c = '\x0c' ||
  c = '\u00A0' || c = '\uFEFF'

/-- jsTrimChars trims leading and trailing JS whitespace, yielding the char
list to match against the numeric literal grammar. -/
def jsTrimChars (s : String) : List Char :=
  ((s.toList.dropWhile jsWhitespaceChar).reverse.dropWhile jsWhitespaceChar).reverse

/-- splitAtFirst splits a char list at the first character satisfying p:
the part before it, and (when found) the part after it. -/
def splitAtFirst (p : Char → Bool) : List Char → List Char × Option (List Char)
  | [] => ([], none)
  | c :: rest =>
    if p c then ([], some rest)
    else
      let (a, b) := splitAtFirst p rest
      (c :: a, b)

/-- expPartOK recognises the exponent part following e or E: an optional
sign then one or more digits. -/
def expPartOK (l : List Char) : Bool :=
  match l with
  | '+' :: rest => !rest.isEmpty && rest.all digitChar
  | '-' :: rest => !rest.isEmpty && rest.all digitChar
  | _ => !l.isEmpty && l.all digitChar

/-- mantissaOK recognises the decimal mantissa: digits, or digits with one
dot, with at least one digit present overall. -/
def mantissaOK (l : List Char) : Bool :=
  match splitAtFirst (fun c => c = '.') l with
  | (a, none) => !a.isEmpty && a.all digitChar
  | (a, some b) => (!a.isEmpty || !b.isEmpty) && a.all digitChar && b.all digitChar

/-- unsignedDecOK recognises an unsigned StrDecimalLiteral: Infinity, or a
mantissa with an optional exponent part. -/
def unsignedDecOK (l : List Char) : Bool :=
  l == "Infinity".toList ||
  (match splitAtFirst (fun c => c = 'e' || c = 'E') l with
   | (m, none) => mantissaOK m
   | (m, some ex) => mantissaOK m && expPartOK ex)

/-- nonDecimalOK recognises the unsigned non-decimal integer literals
0x/0X hex, 0o/0O octal and 0b/0B binary. -/
def nonDecimalOK (l : List Char) : Bool :=
  match l with
  | '0' :: x :: rest =>
    if x = 'x' || x = 'X' then !rest.isEmpty && rest.all hexChar
    else if x = 'o' || x = 'O' then !rest.isEmpty && rest.all octChar
    else if x = 'b' || x = 'B' then !rest.isEmpty && rest.all binChar
    else false
  | _ => false

/-- numericLiteralOK recognises a (trimmed, non-empty) StrNumericLiteral:
a non-decimal integer literal, or an optionally signed decimal literal. -/
def numericLiteralOK (l : List Char) : Bool :=
  nonDecimalOK l ||
  (match l with
   | '+' :: rest => unsignedDecOK rest
   | '-' :: rest => unsignedDecOK rest
   | _ => unsignedDecOK l)

/-- jsNumberIsNaN models the test "isNaN(Number(s))" used by the setter
validators: after trimming, the empty string converts to 0 (not NaN), and
otherwise the string is NaN exactly when it is not a numeric literal. -/
def jsNumberIsNaN (s : String) : Bool :=
  let t := jsTrimChars s
  if t.isEmpty then false
  else !numericLiteralOK t

/-! ## Session state and operation results -/

/-- ClientState holds the private session fields of ApiClient.
Both start as null and may be set by initialization; the token can also end
up undefined when the login response lacks the x-auth-token header. -/
structure ClientState where
  endpoint : JSVal
  authToken : JSVal

/-- initialState is the state right after construction: both fields null. -/
def initialState : ClientState := { endpoint := .vnull, authToken := .vnull }

/-- OpResult is the observable outcome of one public operation:
localErr is an error thrown before the retry wrapper (no network request is
ever issued for it); net is the trace of the retry loop wrapped around the
network call. -/
inductive OpResult (α : Type) where
  | localErr : String → OpResult α
  | net : RetryTrace String α → OpResult α

/-! ## Per-attempt handlers (the async closures passed to retry) -/

/-- determineEndpointAttempt is the closure of determineEndpoint: on
resolution return the body; on an axios error wrap its message; otherwise
throw the generic unexpected error. -/
def determineEndpointAttempt (o : AxiosOutcome) : Except String JSVal :=
  match o with
  | .success _ data _ => .ok data
  | .axiosErr _ msg => .error ("Failed to determine endpoint. Message: " ++ msg)
  | .otherErr _ => .error "An unexpected error occurred"

/-- fetchAuthTokenAttempt is the closure of fetchAuthToken: status 200 with
body exactly false throws the locked-out error (rethrown unchanged by the
non-axios branch of the catch); status 200 otherwise returns the
x-auth-token response header; a 2xx non-200 status returns null; a 404
axios error throws the user-not-found error; any other axios error throws
the auth-fetch error; any other thrown value is rethrown. -/
def fetchAuthTokenAttempt (o : AxiosOutcome) : Except String JSVal :=
  match o with
  | .success status data headers =>
    if status = 200 then
      match data with
      | .vbool false => .error "User is locked out"
      | _ => .ok (headerLookup headers "x-auth-token")
    else .ok .vnull
  | .axiosErr resp _ =>
    match resp with
    | some r =>
      if r.status = 404 then
        .error ("User not found: " ++ jsPrimToString (jsField r.data "message"))
      else
        .error ("Failed to fetch auth token. Status: " ++ toString r.status ++
          ". Message: " ++ jsPrimToString (jsField r.data "message"))
    | none => .error "Failed to fetch auth token. Status: undefined. Message: undefined"
  | .otherErr e => .error e

/-- getDevicesAttempt is the closure of getDevices: resolution returns the
body; a 401 axios error throws the auth-invalid error; other axios errors
throw the device-fetch error interpolating the optional status; non-axios
errors are replaced by the generic unexpected error. -/
def getDevicesAttempt (o : AxiosOutcome) : Except String JSVal :=
  match o with
  | .success _ data _ => .ok data
  | .axiosErr resp _ =>
    if axiosRespStatusIs resp 401 then .error "Auth token invalid or expired"
    else .error ("Error fetching devices: " ++ optStatusString resp)
  | .otherErr _ => .error "An unexpected error occurred"

/-- getDeviceAttributesAttempt is the closure of getDeviceAttributes: a 401
axios error throws the auth-invalid error; every other axios error
(including the logged 500 case) throws the attributes error interpolating
the axios error message; non-axios errors are rethrown. -/
def getDeviceAttributesAttempt (o : AxiosOutcome) : Except String JSVal :=
  match o with
  | .success _ data _ => .ok data
  | .axiosErr resp msg =>
    if axiosRespStatusIs resp 401 then .error "Auth token invalid or expired"
    else .error ("Error fetching attributes: " ++ msg)
  | .otherErr e => .error e

/-- getDeviceInfoAttempt is the closure of getDeviceInfo, parametrised by
the platform JSON.parse (parse): a body of object type is returned as-is;
otherwise the body is coerced to a string and JSON-decoded, a failed decode
throwing the invalid-JSON error (which the outer catch rethrows unchanged);
axios errors throw the device-info error; other errors are rethrown. -/
def getDeviceInfoAttempt (parse : String → Option JSVal) (o : AxiosOutcome) :
    Except String JSVal :=
  match o with
  | .success _ data _ =>
    if jsTypeofObject data then .ok data
    else
      match parse (jsPrimToString data) with
      | some v => .ok v
      | none => .error "Invalid JSON response"
  | .axiosErr _ msg => .error ("Error fetching device info: " ++ msg)
  | .otherErr e => .error e

/-- setFanSpeedAttempt is the POST closure of setFanSpeed. -/
def setFanSpeedAttempt (o : AxiosOutcome) : Except String Unit :=
  match o with
  | .success _ _ _ => .ok ()
  | .axiosErr resp msg =>
    if axiosRespStatusIs resp 401 then .error "Auth token invalid or expired"
    else .error ("Error setting fan speed: " ++ msg)
  | .otherErr e => .error e

/-- setFanAutoAttempt is the POST closure of setFanAuto. -/
def setFanAutoAttempt (o : AxiosOutcome) : Except String Unit :=
  match o with
  | .success _ _ _ => .ok ()
  | .axiosErr resp msg =>
    if axiosRespStatusIs resp 401 then .error "Auth token invalid or expired"
    else .error ("Error setting fan mode: " ++ msg)
  | .otherErr e => .error e

/-- setBrightnessAttempt is the POST closure of setBrightness, which also
returns the response body. -/
def setBrightnessAttempt (o : AxiosOutcome) : Except String JSVal :=
  match o with
  | .success _ data _ => .ok data
  | .axiosErr resp msg =>
    if axiosRespStatusIs resp 401 then .error "Auth token invalid or expired"
    else .error ("Error setting brightness: " ++ msg)
  | .otherErr e => .error e

/-- setChildLockAttempt is the POST closure of setChildLock. -/
def setChildLockAttempt (o : AxiosOutcome) : Except String Unit :=
  match o with
  | .success _ _ _ => .ok ()
  | .axiosErr resp msg =>
    if axiosRespStatusIs resp 401 then .error "Auth token invalid or expired"
    else .error ("Error setting child lock: " ++ msg)
  | .otherErr e => .error e

/-! ## The login phase and the public operations -/

/-- determineEndpoint runs the endpoint-discovery attempt under the retry
wrapper with the default policy, as in the source. -/
def determineEndpoint (net : Nat → AxiosOutcome) : Except String JSVal :=
  retryToExcept (retryDefault (fun i => determineEndpointAttempt (net i)))

/-- fetchAuthToken first performs the local null-endpoint guard (thrown
before the retry wrapper), then runs the login attempt under the retry
wrapper with the default policy. -/
def fetchAuthToken (ep : JSVal) (net : Nat → AxiosOutcome) : OpResult JSVal :=
  if jsFalsy ep then .localErr "Endpoint is null. Cannot fetch auth token."
  else .net (retryDefault (fun i => fetchAuthTokenAttempt (net i)))

/-- opToExcept is the value returned or error thrown by an operation. -/
def opToExcept : OpResult α → Except String α
  | .localErr m => .error m
  | .net t => retryToExcept t

/-- InitOutcome is the observable outcome of initialize: the boolean it
returns and the session state it leaves behind. -/
structure InitOutcome where
  returned : Bool
  state : ClientState

/-- initializeClient models the public initialize method (renamed from
initialize only for Lean naming reasons). The endpoint field is assigned as
soon as determineEndpoint succeeds; the token field is assigned only when
fetchAuthToken succeeds with a non-null value; every thrown error is
swallowed and turned into a false return. netE and netA are the outcome
streams of the discovery and login phases. -/
def initializeClient (st : ClientState) (netE netA : Nat → AxiosOutcome) :
    InitOutcome :=
  match determineEndpoint netE with
  | .error _ => { returned := false, state := st }
  | .ok ep =>
    match opToExcept (fetchAuthToken ep netA) with
    | .error _ => { returned := false, state := { st with endpoint := ep } }
    | .ok tok =>
      match tok with
      | .vnull => { returned := false, state := { st with endpoint := ep } }
      | _ => { returned := true, state := { endpoint := ep, authToken := tok } }

/-- getDevices: the initialization guard is thrown before the retry
wrapper; otherwise the GET is executed under the default retry policy. -/
def getDevices (st : ClientState) (net : Nat → AxiosOutcome) : OpResult JSVal :=
  if jsFalsy st.endpoint || jsFalsy st.authToken then
    .localErr "Client not initialized or missing endpoint/authToken"
  else .net (retryDefault (fun i => getDevicesAttempt (net i)))

/-- getDeviceAttributes: initialization guard, then the GET under the
default retry policy. The uuid only feeds the request URL. -/
def getDeviceAttributes (st : ClientState) (_uuid : String)
    (net : Nat → AxiosOutcome) : OpResult JSVal :=
  if jsFalsy st.endpoint || jsFalsy st.authToken then
    .localErr "Client not initialized or missing endpoint/authToken"
  else .net (retryDefault (fun i => getDeviceAttributesAttempt (net i)))

/-- getDeviceInfo: initialization guard first, then the missing-uuid guard,
both thrown before the retry wrapper; then the GET under the default retry
policy, with bodies handled by getDeviceInfoAttempt. -/
def getDeviceInfo (parse : String → Option JSVal) (st : ClientState)
    (uuid : String) (net : Nat → AxiosOutcome) : OpResult JSVal :=
  if jsFalsy st.endpoint || jsFalsy st.authToken then
    .localErr "Client not initialized or missing endpoint/authToken"
  else if uuid = "" then .localErr "Missing arguments"
  else .net (retryDefault (fun i => getDeviceInfoAttempt parse (net i)))

/-- fanSpeedValues is the legal set of the fan_speed attribute
(inlined as an array literal in the source). -/
def fanSpeedValues : List String := ["0", "1", "2", "3"]

/-- brightnessValues is the legal set of the brightness attribute. -/
def brightnessValues : List String := ["0", "1", "2", "3", "4"]

/-- childLockValues is the legal set of the child_lock attribute. -/
def childLockValues : List String := ["0", "1"]

/-- fanModeValues is the legal set of the mode attribute of setFanAuto. -/
def fanModeValues : List String := ["auto", "manual"]

/-- setFanSpeed: missing-arguments guard, numeric guard, legal-set guard,
then the initialization guard, all thrown before the retry wrapper; then
the POST under the default retry policy. The userId only feeds the request
body. -/
def setFanSpeed (st : ClientState) (uuid currentValue defaultValue : String)
    (_userId : Option Int) (net : Nat → AxiosOutcome) : OpResult Unit :=
  if uuid = "" ∨ currentValue = "" ∨ defaultValue = "" then
    .localErr "Missing arguments"
  else if jsNumberIsNaN currentValue || jsNumberIsNaN defaultValue then
    .localErr "Fan speed value must be numeric."
  else if currentValue ∉ fanSpeedValues ∨ defaultValue ∉ fanSpeedValues then
    .localErr "Invalid fan speed value. Acceptable values are 0, 1, 2, or 3."
  else if jsFalsy st.endpoint || jsFalsy st.authToken then
    .localErr "Client not initialized or missing endpoint/authToken"
  else .net (retryDefault (fun i => setFanSpeedAttempt (net i)))

/-- setFanAuto: missing-arguments guard, legal-set guard (no numeric guard
for the mode attribute), initialization guard, then the POST under the
default retry policy. -/
def setFanAuto (st : ClientState) (uuid currentValue defaultValue : String)
    (_userId : Option Int) (net : Nat → AxiosOutcome) : OpResult Unit :=
  if uuid = "" ∨ currentValue = "" ∨ defaultValue = "" then
    .localErr "Missing arguments"
  else if currentValue ∉ fanModeValues ∨ defaultValue ∉ fanModeValues then
    .localErr "Invalid fan speed value. Acceptable values are manual or auto"
  else if jsFalsy st.endpoint || jsFalsy st.authToken then
    .localErr "Client not initialized or missing endpoint/authToken"
  else .net (retryDefault (fun i => setFanAutoAttempt (net i)))

/-- setBrightness: missing-arguments guard, numeric guard, legal-set guard,
initialization guard, then the POST under the default retry policy. -/
def setBrightness (st : ClientState) (uuid currentValue defaultValue : String)
    (_userId : Option Int) (net : Nat → AxiosOutcome) : OpResult JSVal :=
  if uuid = "" ∨ currentValue = "" ∨ defaultValue = "" then
    .localErr "Missing arguments"
  else if jsNumberIsNaN currentValue || jsNumberIsNaN defaultValue then
    .localErr "Brightness value must be numeric."
  else if currentValue ∉ brightnessValues ∨ defaultValue ∉ brightnessValues then
    .localErr "Invalid brightness value. Acceptable values are 0, 1, 2, 3 or 4."
  else if jsFalsy st.endpoint || jsFalsy st.authToken then
    .localErr "Client not initialized or missing endpoint/authToken"
  else .net (retryDefault (fun i => setBrightnessAttempt (net i)))

/-- setChildLock: missing-arguments guard, numeric guard, legal-set guard,
initialization guard, then the POST under the default retry policy. -/
def setChildLock (st : ClientState) (uuid currentValue defaultValue : String)
    (_userId : Option Int) (net : Nat → AxiosOutcome) : OpResult Unit :=
  if uuid = "" ∨ currentValue = "" ∨ defaultValue = "" then
    .localErr "Missing arguments"
  else if jsNumberIsNaN currentValue || jsNumberIsNaN defaultValue then
    .localErr "Child lock values must be numeric."
  else if currentValue ∉ childLockValues ∨ defaultValue ∉ childLockValues then
    .localErr "Invalid child lock value. Acceptable values are 0 (unlocked) or 1 (locked)."
  else if jsFalsy st.endpoint || jsFalsy st.authToken then
    .localErr "Client not initialized or missing endpoint/authToken"
  else .net (retryDefault (fun i => setChildLockAttempt (net i)))

/-! ## Retry loop lemmas -/

/-- retryGo_allFail: when every attempt fails, the loop with
remaining + 1 attempts left starting at the given attempt number performs
them all, sleeps between consecutive attempts, and rethrows the error of
the final attempt. -/
theorem retryGo_allFail (fn : Nat → Except ε α) (e : Nat → ε) (delay : Nat)
    (hfail : ∀ i, fn i = .error (e i)) :
    ∀ remaining attempt, retryGo fn delay attempt (remaining + 1) =
      { result := .err (e (attempt + remaining)), calls := remaining + 1,
        sleeps := List.replicate remaining delay } := by
  intro remaining
  induction remaining with
  | zero =>
    intro attempt
    simp [retryGo, hfail attempt]
  | succ r ih =>
    intro attempt
    have h := ih (attempt + 1)
    have hidx : attempt + 1 + r = attempt + (r + 1) := by omega
    rw [hidx] at h
    simp [retryGo, hfail attempt, h, List.replicate]

/-- retry_allFail: retry with a positive retry count and an always-failing
operation invokes it exactly that many times. -/
theorem retry_allFail (fn : Nat → Except ε α) (e : Nat → ε) (retries : Int)
    (delay : Nat) (hfail : ∀ i, fn i = .error (e i)) (hpos : 1 ≤ retries) :
    retry fn retries delay =
      { result := .err (e retries.toNat), calls := retries.toNat,
        sleeps := List.replicate (retries.toNat - 1) delay } := by
  unfold retry
  obtain ⟨k, hk⟩ : ∃ k, retries.toNat = k + 1 := ⟨retries.toNat - 1, by omega⟩
  rw [hk]
  have h := retryGo_allFail fn e delay hfail k 1
  have hidx : 1 + k = k + 1 := by omega
  rw [hidx] at h
  simpa using h

/-- retryDefault_allFailConst: under the default policy, an operation
failing with the same error on every attempt is invoked 3 times with two
1000 ms sleeps, and that error is rethrown. -/
theorem retryDefault_allFailConst (fn : Nat → Except ε α) (m : ε)
    (h : ∀ i, fn i = .error m) :
    retryDefault fn = { result := .err m, calls := 3, sleeps := [1000, 1000] } := by
  have := retry_allFail fn (fun _ => m) 3 1000 h (by decide)
  simpa [retryDefault] using this

/-- retryDefault_firstOk: an operation succeeding on the first attempt is
invoked once, with no sleeps. -/
theorem retryDefault_firstOk (fn : Nat → Except ε α) (a : α) (h : fn 1 = .ok a) :
    retryDefault fn = { result := .ok a, calls := 1, sleeps := [] } := by
  show retryGo fn 1000 1 ((3 : Int).toNat) = _
  simp [retryGo, h]

/-- C3: for an operation failing on every attempt, retry invokes it exactly
retries times, sleeps delayMs between failed attempts except after the
last, and rethrows the final attempt error unchanged; a retry count that
never enters the loop body yields the generic exhausted error; the default
policy performs 3 attempts with 1000 ms delays. -/
theorem C3_retry_bound (ε α : Type) (fn : Nat → Except ε α) (e : Nat → ε)
    (retries : Int) (delay : Nat) (hfail : ∀ i, fn i = .error (e i)) :
    (1 ≤ retries →
      retry fn retries delay =
        { result := .err (e retries.toNat), calls := retries.toNat,
          sleeps := List.replicate (retries.toNat - 1) delay }) ∧
    (retries ≤ 0 →
      retry fn retries delay = { result := .exhausted, calls := 0, sleeps := [] }) ∧
    retryDefault fn = { result := .err (e 3), calls := 3, sleeps := [1000, 1000] } := by
  refine ⟨fun hpos => retry_allFail fn e retries delay hfail hpos, fun hneg => ?_, ?_⟩
  · unfold retry
    have h0 : retries.toNat = 0 := by omega
    rw [h0]
    rfl
  · have := retry_allFail fn e 3 1000 hfail (by decide)
    simpa [retryDefault] using this

/-- C3 witness: with the always-failing operation returning the attempt
number as its error, retry with 2 retries performs 2 attempts and one
5 ms sleep and rethrows the second attempt error, and retry with a
negative count yields the exhausted result. -/
theorem C3_retry_bound_witness :
    retry (fun i => (Except.error i : Except Nat Nat)) 2 5 =
      { result := .err 2, calls := 2, sleeps := [5] } ∧
    retry (fun i => (Except.error i : Except Nat Nat)) (-1) 5 =
      { result := .exhausted, calls := 0, sleeps := [] } := by
  have h := C3_retry_bound Nat Nat (fun i => Except.error i) (fun i => i) 2 5
    (fun _ => rfl)
  have h2 := C3_retry_bound Nat Nat (fun i => Except.error i) (fun i => i) (-1) 5
    (fun _ => rfl)
  exact ⟨h.1 (by decide), h2.2.1 (by decide)⟩

/-- C4: for every attribute setter called with non-empty, numeric-parsable
arguments, any currentValue or defaultValue outside the legal set of the
attribute (fan speed 0-3, mode auto/manual, brightness 0-4, child lock 0-1)
yields the invalid-value error with the exact enumerated message. -/
theorem C4_setter_invalid_values :
    (∀ (st : ClientState) (uuid cur dv : String) (uid : Option Int)
        (net : Nat → AxiosOutcome), uuid ≠ "" → cur ≠ "" → dv ≠ "" →
      jsNumberIsNaN cur = false → jsNumberIsNaN dv = false →
      (cur ∉ fanSpeedValues ∨ dv ∉ fanSpeedValues) →
      setFanSpeed st uuid cur dv uid net =
        .localErr "Invalid fan speed value. Acceptable values are 0, 1, 2, or 3.") ∧
    (∀ (st : ClientState) (uuid cur dv : String) (uid : Option Int)
        (net : Nat → AxiosOutcome), uuid ≠ "" → cur ≠ "" → dv ≠ "" →
      jsNumberIsNaN cur = false → jsNumberIsNaN dv = false →
      (cur ∉ fanModeValues ∨ dv ∉ fanModeValues) →
      setFanAuto st uuid cur dv uid net =
        .localErr "Invalid fan speed value. Acceptable values are manual or auto") ∧
    (∀ (st : ClientState) (uuid cur dv : String) (uid : Option Int)
        (net : Nat → AxiosOutcome), uuid ≠ "" → cur ≠ "" → dv ≠ "" →
      jsNumberIsNaN cur = false → jsNumberIsNaN dv = false →
      (cur ∉ brightnessValues ∨ dv ∉ brightnessValues) →
      setBrightness st uuid cur dv uid net =
        .localErr "Invalid brightness value. Acceptable values are 0, 1, 2, 3 or 4.") ∧
    (∀ (st : ClientState) (uuid cur dv : String) (uid : Option Int)
        (net : Nat → AxiosOutcome), uuid ≠ "" → cur ≠ "" → dv ≠ "" →
      jsNumberIsNaN cur = false → jsNumberIsNaN dv = false →
      (cur ∉ childLockValues ∨ dv ∉ childLockValues) →
      setChildLock st uuid cur dv uid net =
        .localErr "Invalid child lock value. Acceptable values are 0 (unlocked) or 1 (locked).") := by
  refine ⟨?_, ?_, ?_, ?_⟩ <;>
    intro st uuid cur dv uid net hu hc hd hnc hnd hset
  · unfold setFanSpeed
    rw [if_neg (by simp [hu, hc, hd]), if_neg (by simp [hnc, hnd]), if_pos hset]
  · unfold setFanAuto
    rw [if_neg (by simp [hu, hc, hd]), if_pos hset]
  · unfold setBrightness
    rw [if_neg (by simp [hu, hc, hd]), if_neg (by simp [hnc, hnd]), if_pos hset]
  · unfold setChildLock
    rw [if_neg (by simp [hu, hc, hd]), if_neg (by simp [hnc, hnd]), if_pos hset]

/-- C4 witness: setBrightness with value 5 yields exactly the enumerated
brightness message. -/
theorem C4_setter_invalid_values_witness :
    setBrightness initialState "device-1" "5" "0" none
        (fun _ => .axiosErr none "Network Error") =
      .localErr "Invalid brightness value. Acceptable values are 0, 1, 2, 3 or 4." :=
  C4_setter_invalid_values.2.2.1 initialState "device-1" "5" "0" none
    (fun _ => .axiosErr none "Network Error") (by decide) (by decide) (by decide)
    (by decide) (by decide) (Or.inl (by decide))

/-- C5: for the fan speed, brightness and child lock setters with non-empty
arguments, a non-numeric currentValue or defaultValue yields exactly the
attribute-specific must-be-numeric error (so the legal-set check never
produces its message for such values). -/
theorem C5_numeric_check_first :
    (∀ (st : ClientState) (uuid cur dv : String) (uid : Option Int)
        (net : Nat → AxiosOutcome), uuid ≠ "" → cur ≠ "" → dv ≠ "" →
      (jsNumberIsNaN cur = true ∨ jsNumberIsNaN dv = true) →
      setFanSpeed st uuid cur dv uid net = .localErr "Fan speed value must be numeric.") ∧
    (∀ (st : ClientState) (uuid cur dv : String) (uid : Option Int)
        (net : Nat → AxiosOutcome), uuid ≠ "" → cur ≠ "" → dv ≠ "" →
      (jsNumberIsNaN cur = true ∨ jsNumberIsNaN dv = true) →
      setBrightness st uuid cur dv uid net = .localErr "Brightness value must be numeric.") ∧
    (∀ (st : ClientState) (uuid cur dv : String) (uid : Option Int)
        (net : Nat → AxiosOutcome), uuid ≠ "" → cur ≠ "" → dv ≠ "" →
      (jsNumberIsNaN cur = true ∨ jsNumberIsNaN dv = true) →
      setChildLock st uuid cur dv uid net = .localErr "Child lock values must be numeric.") := by
  refine ⟨?_, ?_, ?_⟩ <;>
    intro st uuid cur dv uid net hu hc hd hnan
  · unfold setFanSpeed
    rw [if_neg (by simp [hu, hc, hd]), if_pos (by rcases hnan with h | h <;> simp [h])]
  · unfold setBrightness
    rw [if_neg (by simp [hu, hc, hd]), if_pos (by rcases hnan with h | h <;> simp [h])]
  · unfold setChildLock
    rw [if_neg (by simp [hu, hc, hd]), if_pos (by rcases hnan with h | h <;> simp [h])]

/-- C5 witness: a non-numeric fan speed value yields the numeric error and
not the invalid-value error. -/
theorem C5_numeric_check_first_witness :
    setFanSpeed initialState "device-1" "abc" "0" none
        (fun _ => .axiosErr none "Network Error") =
      .localErr "Fan speed value must be numeric." :=
  C5_numeric_check_first.1 initialState "device-1" "abc" "0" none
    (fun _ => .axiosErr none "Network Error") (by decide) (by decide) (by decide)
    (Or.inl (by decide))

/-- C6: on an initialized client, when every attempt of getDevices yields
an axios error carrying HTTP status 401, the call performs all 3 default
attempts (with the two inter-attempt sleeps) and then rethrows the
auth-invalid error with the exact message. -/
theorem C6_getDevices_401 (st : ClientState) (net : Nat → AxiosOutcome)
    (d : Nat → JSVal) (m : Nat → String)
    (hep : jsFalsy st.endpoint = false) (htok : jsFalsy st.authToken = false)
    (hnet : ∀ i, net i = .axiosErr (some { status := 401, data := d i }) (m i)) :
    getDevices st net =
      .net { result := .err "Auth token invalid or expired", calls := 3,
             sleeps := [1000, 1000] } := by
  unfold getDevices
  rw [if_neg (by simp [hep, htok])]
  congr 1
  apply retryDefault_allFailConst
  intro i
  rw [hnet i]
  rfl

/-- C6 witness: a concrete initialized session with every attempt failing
with status 401. -/
theorem C6_getDevices_401_witness :
    getDevices { endpoint := .vstr "api-eu.blueair.io", authToken := .vstr "tok" }
        (fun _ => .axiosErr (some { status := 401, data := .vnull })
          "Request failed with status code 401") =
      .net { result := .err "Auth token invalid or expired", calls := 3,
             sleeps := [1000, 1000] } :=
  C6_getDevices_401 { endpoint := .vstr "api-eu.blueair.io", authToken := .vstr "tok" }
    (fun _ => .axiosErr (some { status := 401, data := .vnull })
      "Request failed with status code 401")
    (fun _ => .vnull) (fun _ => "Request failed with status code 401")
    (by decide) (by decide) (fun _ => rfl)

/-- C8: on an initialized client, getDeviceInfo with an empty uuid yields
the missing-arguments error locally, before the retry wrapper is entered
and hence before any network request is issued. -/
theorem C8_getDeviceInfo_empty_uuid (parse : String → Option JSVal)
    (st : ClientState) (net : Nat → AxiosOutcome)
    (hep : jsFalsy st.endpoint = false) (htok : jsFalsy st.authToken = false) :
    getDeviceInfo parse st "" net = .localErr "Missing arguments" := by
  unfold getDeviceInfo
  rw [if_neg (by simp [hep, htok]), if_pos rfl]

/-- C8 witness: a concrete initialized session. -/
theorem C8_getDeviceInfo_empty_uuid_witness :
    getDeviceInfo (fun _ => none)
        { endpoint := .vstr "api-eu.blueair.io", authToken := .vstr "tok" } ""
        (fun _ => .axiosErr none "Network Error") =
      .localErr "Missing arguments" :=
  C8_getDeviceInfo_empty_uuid (fun _ => none)
    { endpoint := .vstr "api-eu.blueair.io", authToken := .vstr "tok" }
    (fun _ => .axiosErr none "Network Error") (by decide) (by decide)

/-- C9: on an initialized client with a non-empty uuid, a successful
getDeviceInfo response with a body of object type is returned as-is on the
first attempt; a string body is JSON-decoded and the decoded value
returned; and a string body on which the decode fails makes the call
rethrow the invalid-JSON error (after the retry policy re-attempts it)
rather than return the raw string. -/
theorem C9_getDeviceInfo_body (parse : String → Option JSVal) (st : ClientState)
    (uuid : String) (hep : jsFalsy st.endpoint = false)
    (htok : jsFalsy st.authToken = false) (huuid : uuid ≠ "") :
    (∀ (net : Nat → AxiosOutcome) (status : Nat) (data : JSVal)
        (hs : List (String × String)), jsTypeofObject data = true →
      (∀ i, net i = .success status data hs) →
      getDeviceInfo parse st uuid net =
        .net { result := .ok data, calls := 1, sleeps := [] }) ∧
    (∀ (net : Nat → AxiosOutcome) (status : Nat) (s : String)
        (hs : List (String × String)) (v : JSVal), parse s = some v →
      (∀ i, net i = .success status (.vstr s) hs) →
      getDeviceInfo parse st uuid net =
        .net { result := .ok v, calls := 1, sleeps := [] }) ∧
    (∀ (net : Nat → AxiosOutcome) (status : Nat) (s : String)
        (hs : List (String × String)), parse s = none →
      (∀ i, net i = .success status (.vstr s) hs) →
      getDeviceInfo parse st uuid net =
        .net { result := .err "Invalid JSON response", calls := 3,
               sleeps := [1000, 1000] }) := by
  refine ⟨?_, ?_, ?_⟩
  · intro net status data hs hobj hnet
    unfold getDeviceInfo
    rw [if_neg (by simp [hep, htok]), if_neg huuid]
    congr 1
    apply retryDefault_firstOk
    rw [hnet 1]
    simp [getDeviceInfoAttempt, hobj]
  · intro net status s hs v hparse hnet
    unfold getDeviceInfo
    rw [if_neg (by simp [hep, htok]), if_neg huuid]
    congr 1
    apply retryDefault_firstOk
    rw [hnet 1]
    simp [getDeviceInfoAttempt, jsTypeofObject, jsPrimToString, hparse]
  · intro net status s hs hparse hnet
    unfold getDeviceInfo
    rw [if_neg (by simp [hep, htok]), if_neg huuid]
    congr 1
    apply retryDefault_allFailConst
    intro i
    rw [hnet i]
    simp [getDeviceInfoAttempt, jsTypeofObject, jsPrimToString, hparse]

/-- C9 witness: a concrete object body returned as-is, and a concrete
undecodable string body rethrowing the invalid-JSON error. -/
theorem C9_getDeviceInfo_body_witness :
    getDeviceInfo (fun _ => none)
        { endpoint := .vstr "api-eu.blueair.io", authToken := .vstr "tok" } "uuid-1"
        (fun _ => .success 200 (.vobj [("name", .vstr "purifier")]) []) =
      .net { result := .ok (.vobj [("name", .vstr "purifier")]), calls := 1,
             sleeps := [] } ∧
    getDeviceInfo (fun _ => none)
        { endpoint := .vstr "api-eu.blueair.io", authToken := .vstr "tok" } "uuid-1"
        (fun _ => .success 200 (.vstr "not json") []) =
      .net { result := .err "Invalid JSON response", calls := 3,
             sleeps := [1000, 1000] } := by
  have h := C9_getDeviceInfo_body (fun _ => none)
    { endpoint := .vstr "api-eu.blueair.io", authToken := .vstr "tok" } "uuid-1"
    (by decide) (by decide) (by decide)
  exact ⟨h.1 (fun _ => .success 200 (.vobj [("name", .vstr "purifier")]) [])
      200 (.vobj [("name", .vstr "purifier")]) [] rfl (fun _ => rfl),
    h.2.2 (fun _ => .success 200 (.vstr "not json") []) 200 "not json" [] rfl
      (fun _ => rfl)⟩

/-- C10: on an uninitialized client, argument validation of the four
setters runs before the session guard: an empty uuid yields the
missing-arguments error and an out-of-range brightness value yields the
invalid-value error, never the not-initialized error; whereas getDeviceInfo
checks the session first, so an empty uuid there yields the
not-initialized error. -/
theorem C10_validation_order (st : ClientState)
    (h : jsFalsy st.endpoint = true ∨ jsFalsy st.authToken = true) :
    (∀ (cur dv : String) (uid : Option Int) (net : Nat → AxiosOutcome),
      setFanSpeed st "" cur dv uid net = .localErr "Missing arguments") ∧
    (∀ (cur dv : String) (uid : Option Int) (net : Nat → AxiosOutcome),
      setFanAuto st "" cur dv uid net = .localErr "Missing arguments") ∧
    (∀ (cur dv : String) (uid : Option Int) (net : Nat → AxiosOutcome),
      setBrightness st "" cur dv uid net = .localErr "Missing arguments") ∧
    (∀ (cur dv : String) (uid : Option Int) (net : Nat → AxiosOutcome),
      setChildLock st "" cur dv uid net = .localErr "Missing arguments") ∧
    (∀ (uid : Option Int) (net : Nat → AxiosOutcome),
      setBrightness st "device-1" "5" "5" uid net =
        .localErr "Invalid brightness value. Acceptable values are 0, 1, 2, 3 or 4.") ∧
    (∀ (parse : String → Option JSVal) (net : Nat → AxiosOutcome),
      getDeviceInfo parse st "" net =
        .localErr "Client not initialized or missing endpoint/authToken") := by
  refine ⟨?_, ?_, ?_, ?_, ?_, ?_⟩
  · intro cur dv uid net
    unfold setFanSpeed
    rw [if_pos (Or.inl rfl)]
  · intro cur dv uid net
    unfold setFanAuto
    rw [if_pos (Or.inl rfl)]
  · intro cur dv uid net
    unfold setBrightness
    rw [if_pos (Or.inl rfl)]
  · intro cur dv uid net
    unfold setChildLock
    rw [if_pos (Or.inl rfl)]
  · intro uid net
    unfold setBrightness
    rw [if_neg (by decide), if_neg (by decide), if_pos (Or.inl (by decide))]
  · intro parse net
    unfold getDeviceInfo
    rw [if_pos (by rcases h with h | h <;> simp [h])]

/-- C10 witness: concrete uninitialized client. -/
theorem C10_validation_order_witness :
    setFanSpeed initialState "" "2" "2" none (fun _ => .axiosErr none "Network Error") =
      .localErr "Missing arguments" ∧
    setBrightness initialState "device-1" "5" "5" none
        (fun _ => .axiosErr none "Network Error") =
      .localErr "Invalid brightness value. Acceptable values are 0, 1, 2, 3 or 4." ∧
    getDeviceInfo (fun _ => none) initialState ""
        (fun _ => .axiosErr none "Network Error") =
      .localErr "Client not initialized or missing endpoint/authToken" := by
  have h := C10_validation_order initialState (Or.inl rfl)
  exact ⟨h.1 "2" "2" none (fun _ => .axiosErr none "Network Error"),
    h.2.2.2.2.1 none (fun _ => .axiosErr none "Network Error"),
    h.2.2.2.2.2 (fun _ => none) (fun _ => .axiosErr none "Network Error")⟩

/-- C7 counterexample: on an uninitialized client, setChildLock with empty
arguments fails with the missing-arguments validation error, not with the
not-initialized error the claim asserts. -/
theorem C7_counterexample :
    setChildLock initialState "" "" "" none (fun _ => .axiosErr none "Network Error") =
      OpResult.localErr "Missing arguments" ∧
    "Missing arguments" ≠ "Client not initialized or missing endpoint/authToken" := by
  constructor
  · unfold setChildLock
    rw [if_pos (Or.inl rfl)]
  · decide

/-- C7 as amended: on an uninitialized client (endpoint or token falsy),
every public authenticated operation fails with an error thrown before the
retry wrapper, hence locally, with no network request and no retry; for the
three read operations the error is always the not-initialized error, and
for the four setters it is the not-initialized error whenever the
arguments pass validation, and otherwise exactly the argument-validation
error that fires first: the missing-arguments error when an argument is
empty, else the numeric error when a value is non-numeric, else the
invalid-value error when a value is outside the legal set. -/
theorem C7_uninitialized_local (st : ClientState)
    (h : jsFalsy st.endpoint = true ∨ jsFalsy st.authToken = true) :
    (∀ (net : Nat → AxiosOutcome), getDevices st net =
      .localErr "Client not initialized or missing endpoint/authToken") ∧
    (∀ (uuid : String) (net : Nat → AxiosOutcome), getDeviceAttributes st uuid net =
      .localErr "Client not initialized or missing endpoint/authToken") ∧
    (∀ (parse : String → Option JSVal) (uuid : String) (net : Nat → AxiosOutcome),
      getDeviceInfo parse st uuid net =
        .localErr "Client not initialized or missing endpoint/authToken") ∧
    (∀ (uuid cur dv : String) (uid : Option Int) (net : Nat → AxiosOutcome),
      (uuid = "" ∨ cur = "" ∨ dv = "") →
      setFanSpeed st uuid cur dv uid net = .localErr "Missing arguments") ∧
    (∀ (uuid cur dv : String) (uid : Option Int) (net : Nat → AxiosOutcome),
      (uuid = "" ∨ cur = "" ∨ dv = "") →
      setFanAuto st uuid cur dv uid net = .localErr "Missing arguments") ∧
    (∀ (uuid cur dv : String) (uid : Option Int) (net : Nat → AxiosOutcome),
      (uuid = "" ∨ cur = "" ∨ dv = "") →
      setBrightness st uuid cur dv uid net = .localErr "Missing arguments") ∧
    (∀ (uuid cur dv : String) (uid : Option Int) (net : Nat → AxiosOutcome),
      (uuid = "" ∨ cur = "" ∨ dv = "") →
      setChildLock st uuid cur dv uid net = .localErr "Missing arguments") ∧
    (∀ (uuid cur dv : String) (uid : Option Int) (net : Nat → AxiosOutcome),
      uuid ≠ "" → cur ≠ "" → dv ≠ "" →
      (jsNumberIsNaN cur = true ∨ jsNumberIsNaN dv = true) →
      setFanSpeed st uuid cur dv uid net =
        .localErr "Fan speed value must be numeric.") ∧
    (∀ (uuid cur dv : String) (uid : Option Int) (net : Nat → AxiosOutcome),
      uuid ≠ "" → cur ≠ "" → dv ≠ "" →
      (jsNumberIsNaN cur = true ∨ jsNumberIsNaN dv = true) →
      setBrightness st uuid cur dv uid net =
        .localErr "Brightness value must be numeric.") ∧
    (∀ (uuid cur dv : String) (uid : Option Int) (net : Nat → AxiosOutcome),
      uuid ≠ "" → cur ≠ "" → dv ≠ "" →
      (jsNumberIsNaN cur = true ∨ jsNumberIsNaN dv = true) →
      setChildLock st uuid cur dv uid net =
        .localErr "Child lock values must be numeric.") ∧
    (∀ (uuid cur dv : String) (uid : Option Int) (net : Nat → AxiosOutcome),
      uuid ≠ "" → cur ≠ "" → dv ≠ "" → jsNumberIsNaN cur = false →
      jsNumberIsNaN dv = false →
      (cur ∉ fanSpeedValues ∨ dv ∉ fanSpeedValues) →
      setFanSpeed st uuid cur dv uid net =
        .localErr "Invalid fan speed value. Acceptable values are 0, 1, 2, or 3.") ∧
    (∀ (uuid cur dv : String) (uid : Option Int) (net : Nat → AxiosOutcome),
      uuid ≠ "" → cur ≠ "" → dv ≠ "" →
      (cur ∉ fanModeValues ∨ dv ∉ fanModeValues) →
      setFanAuto st uuid cur dv uid net =
        .localErr "Invalid fan speed value. Acceptable values are manual or auto") ∧
    (∀ (uuid cur dv : String) (uid : Option Int) (net : Nat → AxiosOutcome),
      uuid ≠ "" → cur ≠ "" → dv ≠ "" → jsNumberIsNaN cur = false →
      jsNumberIsNaN dv = false →
      (cur ∉ brightnessValues ∨ dv ∉ brightnessValues) →
      setBrightness st uuid cur dv uid net =
        .localErr "Invalid brightness value. Acceptable values are 0, 1, 2, 3 or 4.") ∧
    (∀ (uuid cur dv : String) (uid : Option Int) (net : Nat → AxiosOutcome),
      uuid ≠ "" → cur ≠ "" → dv ≠ "" → jsNumberIsNaN cur = false →
      jsNumberIsNaN dv = false →
      (cur ∉ childLockValues ∨ dv ∉ childLockValues) →
      setChildLock st uuid cur dv uid net =
        .localErr "Invalid child lock value. Acceptable values are 0 (unlocked) or 1 (locked).") ∧
    (∀ (uuid cur dv : String) (uid : Option Int) (net : Nat → AxiosOutcome),
      uuid ≠ "" → cur ≠ "" → dv ≠ "" → jsNumberIsNaN cur = false →
      jsNumberIsNaN dv = false → cur ∈ fanSpeedValues → dv ∈ fanSpeedValues →
      setFanSpeed st uuid cur dv uid net =
        .localErr "Client not initialized or missing endpoint/authToken") ∧
    (∀ (uuid cur dv : String) (uid : Option Int) (net : Nat → AxiosOutcome),
      uuid ≠ "" → cur ≠ "" → dv ≠ "" → cur ∈ fanModeValues → dv ∈ fanModeValues →
      setFanAuto st uuid cur dv uid net =
        .localErr "Client not initialized or missing endpoint/authToken") ∧
    (∀ (uuid cur dv : String) (uid : Option Int) (net : Nat → AxiosOutcome),
      uuid ≠ "" → cur ≠ "" → dv ≠ "" → jsNumberIsNaN cur = false →
      jsNumberIsNaN dv = false → cur ∈ brightnessValues → dv ∈ brightnessValues →
      setBrightness st uuid cur dv uid net =
        .localErr "Client not initialized or missing endpoint/authToken") ∧
    (∀ (uuid cur dv : String) (uid : Option Int) (net : Nat → AxiosOutcome),
      uuid ≠ "" → cur ≠ "" → dv ≠ "" → jsNumberIsNaN cur = false →
      jsNumberIsNaN dv = false → cur ∈ childLockValues → dv ∈ childLockValues →
      setChildLock st uuid cur dv uid net =
        .localErr "Client not initialized or missing endpoint/authToken") := by
  have hcond : (jsFalsy st.endpoint || jsFalsy st.authToken) = true := by
    rcases h with h | h <;> simp [h]
  refine ⟨?_, ?_, ?_, ?_, ?_, ?_, ?_, ?_, ?_, ?_, ?_, ?_, ?_, ?_, ?_, ?_, ?_, ?_⟩
  · intro net
    unfold getDevices
    rw [if_pos hcond]
  · intro uuid net
    unfold getDeviceAttributes
    rw [if_pos hcond]
  · intro parse uuid net
    unfold getDeviceInfo
    rw [if_pos hcond]
  · intro uuid cur dv uid net hempty
    unfold setFanSpeed
    rw [if_pos hempty]
  · intro uuid cur dv uid net hempty
    unfold setFanAuto
    rw [if_pos hempty]
  · intro uuid cur dv uid net hempty
    unfold setBrightness
    rw [if_pos hempty]
  · intro uuid cur dv uid net hempty
    unfold setChildLock
    rw [if_pos hempty]
  · intro uuid cur dv uid net hu hc hd hnan
    unfold setFanSpeed
    rw [if_neg (by simp [hu, hc, hd]),
      if_pos (by rcases hnan with hn | hn <;> simp [hn])]
  · intro uuid cur dv uid net hu hc hd hnan
    unfold setBrightness
    rw [if_neg (by simp [hu, hc, hd]),
      if_pos (by rcases hnan with hn | hn <;> simp [hn])]
  · intro uuid cur dv uid net hu hc hd hnan
    unfold setChildLock
    rw [if_neg (by simp [hu, hc, hd]),
      if_pos (by rcases hnan with hn | hn <;> simp [hn])]
  · intro uuid cur dv uid net hu hc hd hnc hnd hset
    unfold setFanSpeed
    rw [if_neg (by simp [hu, hc, hd]), if_neg (by simp [hnc, hnd]), if_pos hset]
  · intro uuid cur dv uid net hu hc hd hset
    unfold setFanAuto
    rw [if_neg (by simp [hu, hc, hd]), if_pos hset]
  · intro uuid cur dv uid net hu hc hd hnc hnd hset
    unfold setBrightness
    rw [if_neg (by simp [hu, hc, hd]), if_neg (by simp [hnc, hnd]), if_pos hset]
  · intro uuid cur dv uid net hu hc hd hnc hnd hset
    unfold setChildLock
    rw [if_neg (by simp [hu, hc, hd]), if_neg (by simp [hnc, hnd]), if_pos hset]
  · intro uuid cur dv uid net hu hc hd hnc hnd hcin hdin
    unfold setFanSpeed
    rw [if_neg (by simp [hu, hc, hd]), if_neg (by simp [hnc, hnd]),
      if_neg (by simp [hcin, hdin]), if_pos hcond]
  · intro uuid cur dv uid net hu hc hd hcin hdin
    unfold setFanAuto
    rw [if_neg (by simp [hu, hc, hd]), if_neg (by simp [hcin, hdin]), if_pos hcond]
  · intro uuid cur dv uid net hu hc hd hnc hnd hcin hdin
    unfold setBrightness
    rw [if_neg (by simp [hu, hc, hd]), if_neg (by simp [hnc, hnd]),
      if_neg (by simp [hcin, hdin]), if_pos hcond]
  · intro uuid cur dv uid net hu hc hd hnc hnd hcin hdin
    unfold setChildLock
    rw [if_neg (by simp [hu, hc, hd]), if_neg (by simp [hnc, hnd]),
      if_neg (by simp [hcin, hdin]), if_pos hcond]

/-- C7 witness: concrete uninitialized client: getDevices fails with the
not-initialized error, a setter with empty arguments fails with the
missing-arguments validation error, a setter with a non-numeric value
fails with the numeric validation error, and a setter with valid arguments
fails with the not-initialized error. -/
theorem C7_uninitialized_local_witness :
    getDevices initialState (fun _ => .axiosErr none "Network Error") =
      .localErr "Client not initialized or missing endpoint/authToken" ∧
    setChildLock initialState "" "1" "0" none
        (fun _ => .axiosErr none "Network Error") =
      .localErr "Missing arguments" ∧
    setChildLock initialState "device-1" "abc" "0" none
        (fun _ => .axiosErr none "Network Error") =
      .localErr "Child lock values must be numeric." ∧
    setChildLock initialState "device-1" "1" "0" none
        (fun _ => .axiosErr none "Network Error") =
      .localErr "Client not initialized or missing endpoint/authToken" := by
  obtain ⟨h1, h2, h3, h4, h5, h6, h7, h8, h9, h10, h11, h12, h13, h14, h15,
    h16, h17, h18⟩ := C7_uninitialized_local initialState (Or.inl rfl)
  refine ⟨h1 (fun _ => .axiosErr none "Network Error"), ?_, ?_, ?_⟩
  · exact h7 "" "1" "0" none (fun _ => .axiosErr none "Network Error")
      (Or.inl rfl)
  · exact h10 "device-1" "abc" "0" none (fun _ => .axiosErr none "Network Error")
      (by decide) (by decide) (by decide) (Or.inl (by decide))
  · exact h18 "device-1" "1" "0" none (fun _ => .axiosErr none "Network Error")
      (by decide) (by decide) (by decide) (by decide) (by decide) (by decide)
      (by decide)

/-- C1 counterexample: with endpoint discovery succeeding and every login
attempt failing, initialize returns false yet the endpoint field has been
committed (it is no longer null), contradicting the claim that the session
state is unchanged and both fields remain absent after a false return. -/
theorem C1_counterexample :
    (initializeClient initialState
        (fun _ => .success 200 (JSVal.vstr "api-eu.blueair.io") [])
        (fun _ => .axiosErr none "Network Error")).returned = false ∧
    (initializeClient initialState
        (fun _ => .success 200 (JSVal.vstr "api-eu.blueair.io") [])
        (fun _ => .axiosErr none "Network Error")).state.endpoint =
      JSVal.vstr "api-eu.blueair.io" ∧
    JSVal.vstr "api-eu.blueair.io" ≠ JSVal.vnull :=
  ⟨rfl, rfl, fun h => JSVal.noConfusion h⟩

/-- C1 as amended: initialize always returns a boolean (it never throws)
and returns false on any failure: a failed discovery leaves the whole
state unchanged and returns false; a thrown token fetch, and a token fetch
returning null, each return false with the token field unchanged; whenever
it returns false the token field is unchanged; but the endpoint field is
committed as soon as discovery succeeds, even when the subsequent token
fetch fails, so after a false return the endpoint may be present; and a
fully successful run returns true and commits the pair. -/
theorem C1_init_behavior (st : ClientState) (netE netA : Nat → AxiosOutcome) :
    ((initializeClient st netE netA).returned = true ∨
      (initializeClient st netE netA).returned = false) ∧
    ((initializeClient st netE netA).returned = false →
      (initializeClient st netE netA).state.authToken = st.authToken) ∧
    (∀ e, determineEndpoint netE = .error e →
      initializeClient st netE netA = { returned := false, state := st }) ∧
    (∀ ep, determineEndpoint netE = .ok ep →
      (initializeClient st netE netA).state.endpoint = ep) ∧
    (∀ ep e, determineEndpoint netE = .ok ep →
      opToExcept (fetchAuthToken ep netA) = .error e →
      initializeClient st netE netA =
        { returned := false, state := { st with endpoint := ep } }) ∧
    (∀ ep, determineEndpoint netE = .ok ep →
      opToExcept (fetchAuthToken ep netA) = .ok JSVal.vnull →
      initializeClient st netE netA =
        { returned := false, state := { st with endpoint := ep } }) ∧
    (∀ ep tok, determineEndpoint netE = .ok ep →
      opToExcept (fetchAuthToken ep netA) = .ok tok → tok ≠ JSVal.vnull →
      initializeClient st netE netA =
        { returned := true, state := { endpoint := ep, authToken := tok } }) := by
  refine ⟨?_, ?_, ?_, ?_, ?_, ?_, ?_⟩
  · cases h : (initializeClient st netE netA).returned
    · exact Or.inr rfl
    · exact Or.inl rfl
  · intro hfalse
    cases hE : determineEndpoint netE with
    | error e => simp [initializeClient, hE]
    | ok ep =>
      cases hA : opToExcept (fetchAuthToken ep netA) with
      | error e => simp [initializeClient, hE, hA]
      | ok tok =>
        cases tok with
        | vnull => simp [initializeClient, hE, hA]
        | vundefined => simp [initializeClient, hE, hA] at hfalse
        | vbool b => simp [initializeClient, hE, hA] at hfalse
        | vnum n => simp [initializeClient, hE, hA] at hfalse
        | vstr s => simp [initializeClient, hE, hA] at hfalse
        | vobj fs => simp [initializeClient, hE, hA] at hfalse
        | varr xs => simp [initializeClient, hE, hA] at hfalse
  · intro e hE
    simp [initializeClient, hE]
  · intro ep hE
    cases hA : opToExcept (fetchAuthToken ep netA) with
    | error e => simp [initializeClient, hE, hA]
    | ok tok =>
      cases tok with
      | vnull => simp [initializeClient, hE, hA]
      | vundefined => simp [initializeClient, hE, hA]
      | vbool b => simp [initializeClient, hE, hA]
      | vnum n => simp [initializeClient, hE, hA]
      | vstr s => simp [initializeClient, hE, hA]
      | vobj fs => simp [initializeClient, hE, hA]
      | varr xs => simp [initializeClient, hE, hA]
  · intro ep e hE hA
    simp [initializeClient, hE, hA]
  · intro ep hE hA
    simp [initializeClient, hE, hA]
  · intro ep tok hE hA htok
    cases tok with
    | vnull => exact absurd rfl htok
    | vundefined => simp [initializeClient, hE, hA]
    | vbool b => simp [initializeClient, hE, hA]
    | vnum n => simp [initializeClient, hE, hA]
    | vstr s => simp [initializeClient, hE, hA]
    | vobj fs => simp [initializeClient, hE, hA]
    | varr xs => simp [initializeClient, hE, hA]

/-- C1 witness: a concrete run with successful discovery and a failing
login returns false, leaves the token unchanged (null) and commits the
endpoint; a concrete fully successful run returns true and commits the
pair. -/
theorem C1_init_behavior_witness :
    initializeClient initialState
        (fun _ => .success 200 (JSVal.vstr "api-eu.blueair.io") [])
        (fun _ => .axiosErr none "Network Error") =
      { returned := false,
        state := { endpoint := .vstr "api-eu.blueair.io",
                   authToken := .vnull } } ∧
    (initializeClient initialState
        (fun _ => .success 200 (JSVal.vstr "api-eu.blueair.io") [])
        (fun _ => .axiosErr none "Network Error")).state.authToken =
      initialState.authToken ∧
    initializeClient initialState
        (fun _ => .success 200 (JSVal.vstr "api-eu.blueair.io") [])
        (fun _ => .success 200 (JSVal.vstr "true")
          [("x-auth-token", "tok-123")]) =
      { returned := true,
        state := { endpoint := .vstr "api-eu.blueair.io",
                   authToken := .vstr "tok-123" } } := by
  obtain ⟨h1, h2, h3, h4, h5, h6, h7⟩ := C1_init_behavior initialState
    (fun _ => .success 200 (JSVal.vstr "api-eu.blueair.io") [])
    (fun _ => .axiosErr none "Network Error")
  refine ⟨h5 (.vstr "api-eu.blueair.io")
      "Failed to fetch auth token. Status: undefined. Message: undefined" rfl rfl,
    h2 rfl, ?_⟩
  exact (C1_init_behavior initialState
    (fun _ => .success 200 (JSVal.vstr "api-eu.blueair.io") [])
    (fun _ => .success 200 (JSVal.vstr "true")
      [("x-auth-token", "tok-123")])).2.2.2.2.2.2
    (.vstr "api-eu.blueair.io") (.vstr "tok-123") rfl rfl
    (fun h => JSVal.noConfusion h)

end BlueairClient
